import Mathlib

/-!
Verification development for the record filter engine of the mobile
form-builder app (the `Record` component).

The component keeps two lists in its state, `records` (the displayed list)
and `originalRecords` (the snapshot fetched for the selected form), and
filters `originalRecords` with user criteria via `applyFilter`.

We shallowly embed the JavaScript code: field values are modelled as
strings (the value domain the filter claims range over; criterion values
are strings in the data model), JavaScript numbers as an inductive with
NaN and signed infinities over exact decimal values `m * 10 ^ e`, and the
relevant pieces of the JavaScript `Number` conversion (used by the global
`isNaN`) and `parseFloat` as executable parsers over character lists.
String lowercasing is modelled on the ASCII fragment via `Char.toLower`.
-/

/-- ASCII decimal digit test, as used by the JavaScript numeric grammars. -/
def isDigitChar (c : Char) : Bool := '0' ≤ c && c ≤ '9'

/-- Numeric value of a decimal digit character. -/
def digitVal (c : Char) : Nat := c.toNat - '0'.toNat

/-- Value of a list of decimal digit characters, most significant first. -/
def digitsToNat (l : List Char) : Nat :=
  l.foldl (fun acc c => 10 * acc + digitVal c) 0

/-- ASCII hexadecimal digit test (for `Number` hex literals). -/
def isHexDigitChar (c : Char) : Bool :=
  isDigitChar c || ('a' ≤ c && c ≤ 'f') || ('A' ≤ c && c ≤ 'F')

/-- Numeric value of a hexadecimal digit character. -/
def hexDigitVal (c : Char) : Nat :=
  if isDigitChar c then digitVal c
  else if 'a' ≤ c && c ≤ 'f' then c.toNat - 'a'.toNat + 10
  else c.toNat - 'A'.toNat + 10

/-- Octal digit test (for `Number` octal literals). -/
def isOctDigitChar (c : Char) : Bool := '0' ≤ c && c ≤ '7'

/-- Binary digit test (for `Number` binary literals). -/
def isBinDigitChar (c : Char) : Bool := c = '0' || c = '1'

/-- Value of a digit list in a given radix, most significant first. -/
def radixToNat (r : Nat) (f : Char → Nat) (l : List Char) : Nat :=
  l.foldl (fun acc c => r * acc + f c) 0

/-- Whitespace characters stripped by the JavaScript `Number` conversion
and skipped by `parseFloat` (ASCII whitespace plus NBSP and BOM). -/
def isJsSpace (c : Char) : Bool :=
  c = ' ' || c = '\t' || c = '\n' || c = '\r' ||
  c.toNat = 11 || c.toNat = 12 || c.toNat = 160 || c.toNat = 65279

/-- Strip `isJsSpace` characters from both ends of a character list. -/
def trimJsSpace (cs : List Char) : List Char :=
  ((cs.dropWhile isJsSpace).reverse.dropWhile isJsSpace).reverse

/-- The power `10 ^ n` on integers, by structural recursion. -/
def pow10 : Nat → Int
  | 0 => 1
  | n + 1 => 10 * pow10 n

/-- An exact finite decimal value `m * 10 ^ e` (the parsers below only
ever produce finite decimals, so this represents them exactly). -/
structure DecVal where
  m : Int
  e : Int
deriving DecidableEq

/-- Compare two integers. -/
def intCmp (x y : Int) : Ordering :=
  if x < y then .lt else if x = y then .eq else .gt

/-- Compare the values of two exact decimals (independent of
representation: `20 * 10 ^ -1` equals `2 * 10 ^ 0`). -/
def DecVal.cmp (a b : DecVal) : Ordering :=
  if b.e ≤ a.e then intCmp (a.m * pow10 (a.e - b.e).toNat) b.m
  else intCmp a.m (b.m * pow10 (b.e - a.e).toNat)

/-- Negate an exact decimal. -/
def DecVal.neg (a : DecVal) : DecVal := ⟨-a.m, a.e⟩

/-- A JavaScript number as far as the filter engine observes it:
NaN, a signed infinity, or a finite decimal value. -/
inductive JsNum where
  | nan : JsNum
  | inf : Bool → JsNum
  | num : DecVal → JsNum
deriving DecidableEq

/-- Is this JavaScript number NaN? (The global `isNaN` applied to the
`Number` conversion of a value.) -/
def JsNum.isNaN : JsNum → Bool
  | .nan => true
  | _ => false

/-- IEEE-style comparison of two JavaScript numbers: `none` when either
side is NaN (every comparison is then false), otherwise the ordering. -/
def JsNum.cmp : JsNum → JsNum → Option Ordering
  | .nan, _ => none
  | _, .nan => none
  | .inf true, .inf true => some .eq
  | .inf true, _ => some .gt
  | .inf false, .inf false => some .eq
  | .inf false, _ => some .lt
  | .num _, .inf true => some .lt
  | .num _, .inf false => some .gt
  | .num a, .num b => some (a.cmp b)

/-- JavaScript strict equality `===` on numbers (false for NaN). -/
def JsNum.eqb (a b : JsNum) : Bool := a.cmp b == some .eq

/-- JavaScript `<` on numbers (false when either side is NaN). -/
def JsNum.ltb (a b : JsNum) : Bool := a.cmp b == some .lt

/-- JavaScript `>` on numbers (false when either side is NaN). -/
def JsNum.gtb (a b : JsNum) : Bool := a.cmp b == some .gt

/-- JavaScript `<=` on numbers (false when either side is NaN). -/
def JsNum.leb (a b : JsNum) : Bool :=
  a.cmp b == some .lt || a.cmp b == some .eq

/-- JavaScript `>=` on numbers (false when either side is NaN). -/
def JsNum.geb (a b : JsNum) : Bool :=
  a.cmp b == some .gt || a.cmp b == some .eq

/-- Parse an unsigned decimal literal (digits, optional fraction, optional
exponent — the `StrUnsignedDecimalLiteral` grammar without `Infinity`)
from the front of a character list.  Returns the value and the unconsumed
rest; `none` when no digit is present.  An exponent marker not followed by
a digit is left unconsumed, as in JavaScript. -/
def parseUnsignedDec (cs : List Char) : Option (DecVal × List Char) :=
  let ip := cs.takeWhile isDigitChar
  let r1 := cs.dropWhile isDigitChar
  let fr : List Char × List Char :=
    match r1 with
    | '.' :: rest => (rest.takeWhile isDigitChar, rest.dropWhile isDigitChar)
    | _ => ([], r1)
  let fp := fr.1
  let r2 := if ip.isEmpty && fp.isEmpty then r1 else fr.2
  if ip.isEmpty && fp.isEmpty then none
  else
    let mant : DecVal := ⟨(digitsToNat (ip ++ fp) : Int), -(fp.length : Int)⟩
    match r2 with
    | e :: r3 =>
      if e = 'e' || e = 'E' then
        let sg : Bool × List Char :=
          match r3 with
          | '+' :: r4 => (false, r4)
          | '-' :: r4 => (true, r4)
          | _ => (false, r3)
        let ed := sg.2.takeWhile isDigitChar
        if ed.isEmpty then some (mant, r2)
        else
          let ex : Int := (digitsToNat ed : Int)
          some (⟨mant.m, mant.e + (if sg.1 then -ex else ex)⟩,
                sg.2.dropWhile isDigitChar)
      else some (mant, r2)
    | [] => some (mant, [])

/-- Parse a signed decimal literal or signed `Infinity` (the
`StrDecimalLiteral` grammar) from the front of a character list, returning
the value and the unconsumed rest. -/
def parseSignedJs (cs : List Char) : Option (JsNum × List Char) :=
  let sg : Bool × List Char :=
    match cs with
    | '+' :: r => (false, r)
    | '-' :: r => (true, r)
    | _ => (false, cs)
  if sg.2.take 8 = "Infinity".toList then
    some (JsNum.inf (!sg.1), sg.2.drop 8)
  else
    match parseUnsignedDec sg.2 with
    | some (q, r2) => some (JsNum.num (if sg.1 then q.neg else q), r2)
    | none => none

/-- Decimal fallback of the `Number` conversion: the whole (trimmed)
string must be one signed decimal literal or signed `Infinity`. -/
def jsNumberDecimal (cs : List Char) : JsNum :=
  match parseSignedJs cs with
  | some (n, []) => n
  | _ => JsNum.nan

/-- The JavaScript `Number` conversion of a string (the conversion the
global `isNaN` performs on its argument): trim whitespace, empty string
is 0, otherwise the whole remainder must be a numeric literal — signed
decimal or `Infinity`, or an unsigned hex / octal / binary integer
literal. -/
def jsToNumber (s : String) : JsNum :=
  match trimJsSpace s.toList with
  | [] => JsNum.num ⟨0, 0⟩
  | '0' :: c :: rest =>
    if (c = 'x' || c = 'X') && !rest.isEmpty && rest.all isHexDigitChar then
      JsNum.num ⟨(radixToNat 16 hexDigitVal rest : Int), 0⟩
    else if (c = 'o' || c = 'O') && !rest.isEmpty && rest.all isOctDigitChar then
      JsNum.num ⟨(radixToNat 8 digitVal rest : Int), 0⟩
    else if (c = 'b' || c = 'B') && !rest.isEmpty && rest.all isBinDigitChar then
      JsNum.num ⟨(radixToNat 2 digitVal rest : Int), 0⟩
    else jsNumberDecimal ('0' :: c :: rest)
  | cs => jsNumberDecimal cs

/-- The JavaScript `parseFloat` of a string: skip leading whitespace and
parse the longest signed decimal (or `Infinity`) prefix; NaN when there is
none.  Unlike `Number`, trailing garbage is ignored and hex literals parse
only their leading decimal digits. -/
def jsParseFloat (s : String) : JsNum :=
  match parseSignedJs (s.toList.dropWhile isJsSpace) with
  | some (n, _) => n
  | none => JsNum.nan

example : jsToNumber "" = JsNum.num ⟨0, 0⟩ := by decide
example : jsToNumber "  " = JsNum.num ⟨0, 0⟩ := by decide
example : (jsToNumber "10").isNaN = false := by decide
example : jsToNumber "10" = JsNum.num ⟨10, 0⟩ := by decide
example : (jsToNumber "apple").isNaN = true := by decide
example : jsParseFloat "" = JsNum.nan := by decide
example : jsParseFloat "10" = JsNum.num ⟨10, 0⟩ := by decide
example : jsToNumber "0x1A" = JsNum.num ⟨26, 0⟩ := by decide
example : jsParseFloat "0x1A" = JsNum.num ⟨0, 0⟩ := by decide
example : jsToNumber "1e2" = JsNum.num ⟨1, 2⟩ := by decide
example : jsToNumber "1e" = JsNum.nan := by decide
example : jsParseFloat "1e" = JsNum.num ⟨1, 0⟩ := by decide
example : jsToNumber "-2.5" = JsNum.num ⟨-25, -1⟩ := by decide
example : jsToNumber "Infinity" = JsNum.inf true := by decide
example : jsToNumber "-Infinity" = JsNum.inf false := by decide
example : jsToNumber ".5" = JsNum.num ⟨5, -1⟩ := by decide
example : jsToNumber "5." = JsNum.num ⟨5, 0⟩ := by decide
example : jsToNumber "." = JsNum.nan := by decide
example : jsToNumber "0x" = JsNum.nan := by decide
example : JsNum.gtb (jsParseFloat "10") (jsParseFloat "5") = true := by decide
example : JsNum.eqb (jsParseFloat "2.50") (jsParseFloat "2.5") = true := by decide
example : JsNum.eqb JsNum.nan JsNum.nan = false := by decide
example : JsNum.leb (jsParseFloat "50") (jsParseFloat "75") = true := by decide

/-- The JavaScript `toLowerCase` of a string, on the ASCII fragment. -/
def jsToLower (s : String) : String := ⟨s.toList.map Char.toLower⟩

/-- Does the character list `s` start with the pattern `pat`?
(JavaScript `String.prototype.startsWith`.) -/
def startsWithChars : List Char → List Char → Bool
  | _, [] => true
  | [], _ :: _ => false
  | a :: as, b :: bs => a = b && startsWithChars as bs

/-- Does the character list `s` contain `pat` as a contiguous substring?
(JavaScript `String.prototype.includes`.) -/
def containsChars (s pat : List Char) : Bool :=
  match s with
  | [] => pat.isEmpty
  | _ :: rest => startsWithChars s pat || containsChars rest pat

/-- A filter criterion as produced by the FilterBuilder UI:
`{ field, operator, value }`, all strings. -/
structure Criterion where
  field : String
  operator : String
  value : String
deriving DecidableEq

/-- A record as the filter engine sees it: an id and a `values` mapping
from field names to field values.  A field value is a string; an entry
whose value is `none` models a JSON `null` (the code treats a `null`
entry and an absent entry alike via `val == null`). -/
structure FormRecord where
  id : Nat
  values : List (String × Option String)
deriving DecidableEq

/-- Evaluation of one criterion against one present field value — the body
of the arrow function inside `applyFilter` after the `val == null` guard:
lowercase both sides; if neither side is NaN under `Number` conversion
(the `!isNaN(val) && !isNaN(c.value)` test), dispatch on the operator in
the numeric table over the `parseFloat` of both sides, else dispatch in
the case-insensitive string table. -/
def evalValue (val : String) (c : Criterion) : Bool :=
  let strVal := jsToLower val
  let input := jsToLower c.value
  if !(jsToNumber val).isNaN && !(jsToNumber c.value).isNaN then
    let numVal := jsParseFloat val
    let numInput := jsParseFloat c.value
    match c.operator with
    | "equals" => JsNum.eqb numVal numInput
    | "greater" => JsNum.gtb numVal numInput
    | "less" => JsNum.ltb numVal numInput
    | "greaterOrEqual" => JsNum.geb numVal numInput
    | "lessOrEqual" => JsNum.leb numVal numInput
    | _ => false
  else
    match c.operator with
    | "equals" => strVal == input
    | "contains" => containsChars strVal.toList input.toList
    | "startswith" => startsWithChars strVal.toList input.toList
    | _ => false

/-- Evaluation of one criterion against one record — the arrow function
inside `applyFilter`: look up `record.values[c.field]`; absent or null
yields false (`if (val == null) return false`), otherwise evaluate the
value. -/
def evalCriterion (record : FormRecord) (c : Criterion) : Bool :=
  match record.values.lookup c.field with
  | none => false
  | some none => false
  | some (some val) => evalValue val c

/-- The `applyFilter` function of the Record component, as a pure function
of the snapshot it reads (`originalRecords`) and its two arguments.  An
empty criteria list returns the snapshot unchanged; otherwise the snapshot
is filtered with `criteria.every` when `logic === 'AND'` and with
`criteria.some` for any other logic value (`logic` is an `Option` so that
an absent/undefined argument is representable). -/
def applyFilter (originalRecords : List FormRecord) (criteria : List Criterion)
    (logic : Option String) : List FormRecord :=
  if criteria.isEmpty then originalRecords
  else
    originalRecords.filter fun record =>
      if logic = some "AND" then criteria.all fun c => evalCriterion record c
      else criteria.any fun c => evalCriterion record c

/-- The filter-relevant state of the Record component: the displayed
`records` list and the `originalRecords` snapshot. -/
structure RecordState where
  records : List FormRecord
  originalRecords : List FormRecord
deriving DecidableEq

/-- The state transition of `fetchRecords` on success: both `records` and
`originalRecords` are set to the fetched data. -/
def fetchRecordsStep (data : List FormRecord) (_ : RecordState) : RecordState :=
  { records := data, originalRecords := data }

/-- The state transition of `applyFilter`: `records` is recomputed from
the `originalRecords` snapshot (the empty-criteria branch sets it to the
snapshot itself); `originalRecords` is untouched. -/
def applyFilterStep (criteria : List Criterion) (logic : Option String)
    (s : RecordState) : RecordState :=
  { s with records := applyFilter s.originalRecords criteria logic }

/-- The state transition of the confirmed `handleDelete`: the record with
the given id is removed from both `records` and `originalRecords`
(`prev.filter((r) => r.id !== recordId)`). -/
def handleDeleteStep (recordId : Nat) (s : RecordState) : RecordState :=
  { records := s.records.filter fun r => r.id ≠ recordId,
    originalRecords := s.originalRecords.filter fun r => r.id ≠ recordId }

/-- The events of the Record component that touch the two record lists. -/
inductive RecordEvent where
  | fetch (data : List FormRecord)
  | applyF (criteria : List Criterion) (logic : Option String)
  | delete (recordId : Nat)

/-- One component step. -/
def stepEvent (s : RecordState) : RecordEvent → RecordState
  | .fetch data => fetchRecordsStep data s
  | .applyF criteria logic => applyFilterStep criteria logic s
  | .delete recordId => handleDeleteStep recordId s

/-- Run a sequence of component events from a state. -/
def runEvents (s : RecordState) (es : List RecordEvent) : RecordState :=
  es.foldl stepEvent s

/-- The component mounts with both lists empty. -/
def initialState : RecordState := ⟨[], []⟩

/-- The numeric operator table as the spec describes it: `equals`,
`greater`, `less`, `greaterOrEqual`, `lessOrEqual` compare the two
numbers; any other operator yields false. -/
def specNumericTable (op : String) (a b : JsNum) : Bool :=
  match op with
  | "equals" => JsNum.eqb a b
  | "greater" => JsNum.gtb a b
  | "less" => JsNum.ltb a b
  | "greaterOrEqual" => JsNum.geb a b
  | "lessOrEqual" => JsNum.leb a b
  | _ => false

/-- The string operator table as the spec describes it, applied to the
already-lowercased renderings: `equals` is exact match, `contains` a
substring test, `startswith` a prefix test; any other operator yields
false. -/
def specStringTable (op : String) (s t : String) : Bool :=
  match op with
  | "equals" => s == t
  | "contains" => containsChars s.toList t.toList
  | "startswith" => startsWithChars s.toList t.toList
  | _ => false

/-- Strict parsing of a whole string as a number, following the claim
wording "parse as valid numbers under IEEE-754 decimal floating-point
string parsing": after trimming surrounding whitespace, the entire string
must be one signed decimal literal (or signed infinity); in particular the
empty string, whitespace-only strings and hex/octal/binary literals do
not parse. -/
def specStrictParse (s : String) : Option JsNum :=
  match parseSignedJs (trimJsSpace s.toList) with
  | some (n, []) => some n
  | _ => none

/-- Criterion evaluation exactly as claim C2 words it: numeric mode is
taken if and only if both sides strictly parse as numbers, in which case
the numeric table compares the two parsed numbers; otherwise the
case-insensitive string table applies. -/
def specEvalStrict (val : String) (c : Criterion) : Bool :=
  match specStrictParse val, specStrictParse c.value with
  | some a, some b => specNumericTable c.operator a b
  | _, _ => specStringTable c.operator (jsToLower val) (jsToLower c.value)

/-- Criterion evaluation as the code actually dispatches it: numeric mode
is taken iff neither side is NaN under the `Number` conversion, and the
numeric table then compares the `parseFloat` values (which can be NaN,
making every comparison false). -/
def specEvalAmended (val : String) (c : Criterion) : Bool :=
  if !(jsToNumber val).isNaN && !(jsToNumber c.value).isNaN then
    specNumericTable c.operator (jsParseFloat val) (jsParseFloat c.value)
  else
    specStringTable c.operator (jsToLower val) (jsToLower c.value)

example : evalValue "10" ⟨"x", "greater", "5"⟩ = true := by decide
example : evalValue "apple" ⟨"x", "contains", "app"⟩ = true := by decide
example : evalValue "Sydney" ⟨"city", "equals", "sydney"⟩ = true := by decide
example : evalValue "" ⟨"x", "equals", ""⟩ = false := by decide
example : specEvalStrict "" ⟨"x", "equals", ""⟩ = true := by decide
example : evalCriterion ⟨1, []⟩ ⟨"age", "equals", "5"⟩ = false := by decide
example :
    applyFilter
      [⟨1, [("city", some "Brisbane"), ("price", some "100")]⟩,
       ⟨2, [("city", some "Sydney"), ("price", some "50")]⟩]
      [⟨"price", "lessOrEqual", "75"⟩] (some "AND")
      = [⟨2, [("city", some "Sydney"), ("price", some "50")]⟩] := by decide
example :
    applyFilter
      [⟨1, [("city", some "Brisbane"), ("price", some "100")]⟩,
       ⟨2, [("city", some "Sydney"), ("price", some "50")]⟩]
      [⟨"city", "startswith", "b"⟩, ⟨"price", "greater", "200"⟩] (some "OR")
      = [⟨1, [("city", some "Brisbane"), ("price", some "100")]⟩] := by decide

lemma applyFilter_ne_nil (records : List FormRecord) (criteria : List Criterion)
    (logic : Option String) (h : criteria ≠ []) :
    applyFilter records criteria logic
      = records.filter fun record =>
          if logic = some "AND" then criteria.all fun c => evalCriterion record c
          else criteria.any fun c => evalCriterion record c := by
  unfold applyFilter
  rw [if_neg]
  simp [h]

lemma applyFilter_sublist (records : List FormRecord) (criteria : List Criterion)
    (logic : Option String) :
    (applyFilter records criteria logic).Sublist records := by
  unfold applyFilter
  split
  · exact List.Sublist.refl records
  · exact List.filter_sublist records

lemma evalValue_eq_amended (val : String) (c : Criterion) :
    evalValue val c = specEvalAmended val c := by
  unfold evalValue specEvalAmended specNumericTable specStringTable
  rfl

lemma stepEvent_preserves (s : RecordState) (e : RecordEvent)
    (h : s.records.Sublist s.originalRecords) :
    (stepEvent s e).records.Sublist (stepEvent s e).originalRecords := by
  cases e with
  | fetch data => exact List.Sublist.refl data
  | applyF criteria logic => exact applyFilter_sublist s.originalRecords criteria logic
  | delete recordId => exact h.filter _

lemma runEvents_preserves (es : List RecordEvent) : ∀ s : RecordState,
    s.records.Sublist s.originalRecords →
    (runEvents s es).records.Sublist (runEvents s es).originalRecords := by
  induction es with
  | nil => exact fun s h => h
  | cons e rest ih => exact fun s h => ih (stepEvent s e) (stepEvent_preserves s e h)

/-- C1: for every list of records, every non-empty criteria list, and
logic AND or OR, `applyFilter` returns a new collection preserving the
relative order of the input (a sublist), containing exactly those records
for which, under AND, every criterion evaluates true and, under OR, at
least one does. -/
theorem applyFilter_and_or_characterization (records : List FormRecord)
    (criteria : List Criterion) (logic : Option String)
    (h1 : criteria ≠ []) (_h2 : logic = some "AND" ∨ logic = some "OR") :
    (applyFilter records criteria logic).Sublist records ∧
    applyFilter records criteria logic
      = records.filter (fun r =>
          if logic = some "AND" then criteria.all fun c => evalCriterion r c
          else criteria.any fun c => evalCriterion r c) ∧
    ∀ r, r ∈ applyFilter records criteria logic ↔
      r ∈ records ∧
        (if logic = some "AND" then ∀ c ∈ criteria, evalCriterion r c = true
         else ∃ c ∈ criteria, evalCriterion r c = true) := by
  rw [applyFilter_ne_nil records criteria logic h1]
  refine ⟨List.filter_sublist records, rfl, fun r => ?_⟩
  rw [List.mem_filter]
  by_cases hA : logic = some "AND"
  · simp [hA, List.all_eq_true]
  · simp [hA, List.any_eq_true]

def wrec1 : FormRecord := ⟨1, [("city", some "Brisbane"), ("price", some "100")]⟩

def wrec2 : FormRecord := ⟨2, [("city", some "Sydney"), ("price", some "50")]⟩

def wcritPrice : Criterion := ⟨"price", "lessOrEqual", "75"⟩

def wcritCity : Criterion := ⟨"city", "startswith", "b"⟩

theorem applyFilter_and_or_characterization_witness :
    (([wcritPrice] : List Criterion) ≠ []) ∧
    ((applyFilter [wrec1, wrec2] [wcritPrice] (some "AND")).Sublist [wrec1, wrec2] ∧
     applyFilter [wrec1, wrec2] [wcritPrice] (some "AND")
       = [wrec1, wrec2].filter (fun r =>
           if (some "AND" : Option String) = some "AND" then
             [wcritPrice].all fun c => evalCriterion r c
           else [wcritPrice].any fun c => evalCriterion r c) ∧
     ∀ r, r ∈ applyFilter [wrec1, wrec2] [wcritPrice] (some "AND") ↔
       r ∈ [wrec1, wrec2] ∧
         (if (some "AND" : Option String) = some "AND" then
            ∀ c ∈ [wcritPrice], evalCriterion r c = true
          else ∃ c ∈ [wcritPrice], evalCriterion r c = true)) :=
  ⟨by decide,
   applyFilter_and_or_characterization [wrec1, wrec2] [wcritPrice] (some "AND")
     (by decide) (Or.inl rfl)⟩

/-- C5: applying the filter with an empty criteria list is the identity on
the record collection, for either logic value. -/
theorem applyFilter_empty_criteria_identity (records : List FormRecord)
    (logic : Option String) :
    applyFilter records [] logic = records := rfl

/-- C6: `applyFilter` computes the displayed records purely from the
`originalRecords` snapshot, leaves the snapshot untouched, and therefore
two successive applications give the same displayed list as the second
application alone — filters never stack. -/
theorem applyFilter_snapshot_not_cumulative (s : RecordState)
    (c1 c2 : List Criterion) (l1 l2 : Option String) :
    (applyFilterStep c1 l1 s).originalRecords = s.originalRecords ∧
    (applyFilterStep c1 l1 s).records = applyFilter s.originalRecords c1 l1 ∧
    (applyFilterStep c2 l2 (applyFilterStep c1 l1 s)).records
      = (applyFilterStep c2 l2 s).records :=
  ⟨rfl, rfl, rfl⟩

/-- C7: with a single criterion the logic mode is irrelevant — filtering
under OR equals filtering under AND. -/
theorem applyFilter_single_criterion_logic_irrelevant (records : List FormRecord)
    (c : Criterion) :
    applyFilter records [c] (some "OR") = applyFilter records [c] (some "AND") := by
  simp [applyFilter]

/-- C8: filtering with two criteria under AND yields a subset of filtering
with either criterion alone under AND. -/
theorem applyFilter_and_pair_subset (R : List FormRecord) (c1 c2 : Criterion) :
    applyFilter R [c1, c2] (some "AND") ⊆ applyFilter R [c1] (some "AND") ∧
    applyFilter R [c1, c2] (some "AND") ⊆ applyFilter R [c2] (some "AND") := by
  rw [applyFilter_ne_nil R [c1, c2] _ (by simp), applyFilter_ne_nil R [c1] _ (by simp),
    applyFilter_ne_nil R [c2] _ (by simp)]
  constructor <;> intro x hx <;> rw [List.mem_filter] at hx ⊢ <;>
    refine ⟨hx.1, ?_⟩ <;> have hval := hx.2 <;> simp at hval ⊢ <;> tauto

/-- C10: for a non-empty criteria list, any logic value other than the
exact string AND (OR, an absent value, or any other string) is evaluated
with OR semantics — a record is kept iff at least one criterion is
satisfied. -/
theorem applyFilter_non_and_is_or (records : List FormRecord)
    (criteria : List Criterion) (logic : Option String)
    (h1 : criteria ≠ []) (h2 : logic ≠ some "AND") :
    applyFilter records criteria logic
        = records.filter (fun r => criteria.any fun c => evalCriterion r c) ∧
    ∀ r, r ∈ applyFilter records criteria logic ↔
      r ∈ records ∧ ∃ c ∈ criteria, evalCriterion r c = true := by
  rw [applyFilter_ne_nil records criteria logic h1]
  refine ⟨by simp [h2], fun r => ?_⟩
  rw [List.mem_filter]
  simp [h2, List.any_eq_true]

theorem applyFilter_non_and_is_or_witness :
    (([wcritCity] : List Criterion) ≠ []) ∧ ((none : Option String) ≠ some "AND") ∧
    (applyFilter [wrec1, wrec2] [wcritCity] none
        = [wrec1, wrec2].filter (fun r => [wcritCity].any fun c => evalCriterion r c) ∧
     ∀ r, r ∈ applyFilter [wrec1, wrec2] [wcritCity] none ↔
       r ∈ [wrec1, wrec2] ∧ ∃ c ∈ [wcritCity], evalCriterion r c = true) :=
  ⟨by decide, by decide,
   applyFilter_non_and_is_or [wrec1, wrec2] [wcritCity] none (by decide) (by decide)⟩

/-- C2 (counterexample): the claim ties the numeric path to strict
IEEE-754-style decimal parsing of both sides, but the code dispatches on
the JavaScript `isNaN` of the `Number` conversion, which also accepts the
empty string (as 0).  For record value `""` and criterion
`{operator: "equals", value: ""}` the claim demands the string path
(`""` does not strictly parse), which matches; the code takes the numeric
path, where `parseFloat("")` is NaN and `equals` is false. -/
theorem evalValue_strict_dispatch_counterexample :
    evalValue "" ⟨"x", "equals", ""⟩ = false ∧
    specEvalStrict "" ⟨"x", "equals", ""⟩ = true := by
  constructor <;> decide

/-- C2 (amended): the criterion is evaluated numerically if and only if
neither the record's value nor the criterion's value is NaN under the
JavaScript `Number` conversion (which, unlike strict IEEE-754 decimal
parsing, also accepts empty and whitespace-only strings as 0 and
hex/octal/binary integer literals); in numeric mode the operators
`equals`, `greater`, `less`, `greaterOrEqual`, `lessOrEqual` compare the
`parseFloat` values of the two sides (every comparison with a NaN
`parseFloat` result is false), and any other operator yields false;
otherwise the case-insensitive string table applies. -/
theorem evalValue_numeric_dispatch_amended (val : String) (c : Criterion) :
    evalValue val c = specEvalAmended val c :=
  evalValue_eq_amended val c

/-- C3: a criterion whose field is absent from the record's values
mapping, or maps to null, evaluates to not-satisfied, and such a record
never aborts the filtering of the remaining records: filtering a list
that starts with it simply drops it and continues. -/
theorem evalCriterion_missing_or_null_false (r : FormRecord) (c : Criterion)
    (h : r.values.lookup c.field = none ∨ r.values.lookup c.field = some none) :
    evalCriterion r c = false ∧
    ∀ (rest : List FormRecord) (logic : Option String),
      applyFilter (r :: rest) [c] logic = applyFilter rest [c] logic := by
  have hc : evalCriterion r c = false := by
    unfold evalCriterion
    rcases h with h | h <;> rw [h]
  refine ⟨hc, fun rest logic => ?_⟩
  rw [applyFilter_ne_nil _ _ _ (by simp), applyFilter_ne_nil _ _ _ (by simp)]
  simp [List.filter_cons, hc]

theorem evalCriterion_missing_or_null_false_witness :
    ((⟨1, []⟩ : FormRecord).values.lookup "age" = none ∨
      (⟨1, []⟩ : FormRecord).values.lookup "age" = some none) ∧
    (evalCriterion ⟨1, []⟩ ⟨"age", "equals", "5"⟩ = false ∧
     ∀ (rest : List FormRecord) (logic : Option String),
       applyFilter ((⟨1, []⟩ : FormRecord) :: rest) [⟨"age", "equals", "5"⟩] logic
         = applyFilter rest [⟨"age", "equals", "5"⟩] logic) :=
  ⟨Or.inl rfl, evalCriterion_missing_or_null_false ⟨1, []⟩ ⟨"age", "equals", "5"⟩ (Or.inl rfl)⟩

/-- C4: when the numeric path is not taken (at least one side is NaN under
the `Number` conversion), the criterion is evaluated on the lowercased
renderings of both values by the string table — `equals` is exact match
after lowercasing, `contains` a substring test, `startswith` a prefix
test, and any other operator (in particular the numeric-only comparison
operators) yields false. -/
theorem evalValue_string_mode (val : String) (c : Criterion)
    (h : ((jsToNumber val).isNaN || (jsToNumber c.value).isNaN) = true) :
    evalValue val c = specStringTable c.operator (jsToLower val) (jsToLower c.value) := by
  have hg : (!(jsToNumber val).isNaN && !(jsToNumber c.value).isNaN) = false := by
    cases h1 : (jsToNumber val).isNaN <;> cases h2 : (jsToNumber c.value).isNaN <;>
      simp_all
  rw [evalValue_eq_amended]
  unfold specEvalAmended
  simp [hg]

theorem evalValue_string_mode_witness :
    ((jsToNumber "Sydney").isNaN || (jsToNumber "sydney").isNaN) = true ∧
    evalValue "Sydney" ⟨"city", "equals", "sydney"⟩
      = specStringTable "equals" (jsToLower "Sydney") (jsToLower "sydney") ∧
    evalValue "Sydney" ⟨"city", "equals", "sydney"⟩ = true :=
  ⟨by decide, evalValue_string_mode "Sydney" ⟨"city", "equals", "sydney"⟩ (by decide),
   by decide⟩

/-- C9: in every state reachable by fetches, filter applications and
deletions from the initial state, the displayed `records` list is an
order-preserving subsequence (sublist) of the `originalRecords` snapshot;
moreover a fetch sets both lists to the fetched data and a deletion
removes the same record id from both lists. -/
theorem record_component_sublist_invariant (events : List RecordEvent) :
    (runEvents initialState events).records.Sublist
      (runEvents initialState events).originalRecords ∧
    (∀ (data : List FormRecord) (s : RecordState),
      (stepEvent s (.fetch data)).records = data ∧
      (stepEvent s (.fetch data)).originalRecords = data) ∧
    (∀ (recordId : Nat) (s : RecordState),
      (stepEvent s (.delete recordId)).records
          = s.records.filter (fun r => r.id ≠ recordId) ∧
      (stepEvent s (.delete recordId)).originalRecords
          = s.originalRecords.filter (fun r => r.id ≠ recordId)) :=
  ⟨runEvents_preserves events initialState (List.Sublist.refl []),
   fun _ _ => ⟨rfl, rfl⟩, fun _ _ => ⟨rfl, rfl⟩⟩

example : evalValue "2020" ⟨"year", "equals", "2020.0"⟩ = true := by decide
example : evalValue "0x10" ⟨"x", "contains", "0x10"⟩ = false := by decide
example : evalValue "Infinity" ⟨"x", "equals", "Infinity"⟩ = true := by decide
example : evalValue "banana" ⟨"x", "greater", "5"⟩ = false := by decide
example :
    applyFilter [wrec1, wrec2] [] none = [wrec1, wrec2] := by decide
example :
    applyFilterStep [wcritCity] (some "OR")
      (applyFilterStep [wcritPrice] (some "AND") ⟨[wrec1, wrec2], [wrec1, wrec2]⟩)
      = ⟨[wrec1], [wrec1, wrec2]⟩ := by decide
